import Mathlib

/-!
Verification development for the Mitre-Data-Quality Kibana plugin.

The definitions below are a shallow embedding of the two core subsystems:

* the data-quality scoring engine (`DataQualityScoringService` and
  `DataQualityTaskRunner` in the server services), and
* the taxonomy parser (`MitreMatrixParser`).

Conventions of the embedding:

* JavaScript numbers are modelled as `ℚ` (all values handled by the scoring
  code are small decimals, exactly representable);
* ISO-8601 timestamp strings are modelled by their epoch value in
  milliseconds (`Int`); the lexicographic order on the strings used by the
  result-store range query agrees with the numeric order;
* `Math.round` is `round : ℚ → ℤ` (both are floor of `x + 1/2`);
* Elasticsearch round trips become oracle functions / environment data
  carried in explicit environment structures, and thrown exceptions become
  `Except`-style outcomes with explicit fault-injection flags marking the
  places where the real client can throw;
* optional / falsy JavaScript fields become `Option` values, with the
  truthiness tests of the source spelled out (`""` and `undefined` are
  falsy; an empty array is truthy).
-/

/-! ## Rounding helpers (Math.round based) -/

/-- Math.round of a JS number, i.e. `⌊x + 1/2⌋`. -/
def jsRound (q : ℚ) : ℤ := round q

/-- Math.round(q * 100) / 100, the two-decimal rounding used by the
completeness score. -/
def roundTo2 (q : ℚ) : ℚ := (jsRound (q * 100) : ℚ) / 100

/-- Math.round(q * 10) / 10, the one-decimal rounding used by the quality
score and the settings averages. -/
def roundTo1 (q : ℚ) : ℚ := (jsRound (q * 10) : ℚ) / 10

/-! ## Data model of the scoring service (src: data_quality_scoring_service) -/

/-- Default refresh interval: 7 days in milliseconds. -/
def DEFAULT_REFRESH_DELAY_MS : ℤ := 7 * 24 * 60 * 60 * 1000

/-- Default retention score when no per-platform setting exists. -/
def DEFAULT_RETENTION_SCORE : ℚ := 5

/-- Default device completeness score when no per-platform setting exists. -/
def DEFAULT_DEVICE_COMPLETENESS_SCORE : ℚ := 2

/-- ECS mapping block of a log source reference. -/
structure EcsMapping where
  name_field : String
  name_value : String
  channel_field : String
  channel_value : String
  deriving DecidableEq

/-- The `mapping` block of a log source reference. -/
structure Mapping where
  ecs : EcsMapping
  status : String
  confidence : String
  notes : String
  verified : Bool
  deriving DecidableEq

/-- A log source reference carried by an analytic document. -/
structure LogSourceReference where
  x_mitre_data_component_ref : String
  data_component_name : String
  name : String
  channel : String
  mapping : Mapping
  deriving DecidableEq

/-- An analytic document read from the ECS index. -/
structure AnalyticDocument where
  id : String
  name : String
  x_mitre_log_source_references : List LogSourceReference
  deriving DecidableEq

/-- The last matching log record returned by the probe.  The two timestamp
fields are epoch milliseconds; `none` models an absent (or falsy) field. -/
structure LastDoc where
  timestamp : Option ℤ
  ingested : Option ℤ
  deriving DecidableEq

/-- Result of a probe against the log store. -/
structure QueryResult where
  exists_ : Bool
  lastDoc : Option LastDoc
  deriving DecidableEq

/-! ## Probe query construction (queryFieldExists) -/

/-- One clause of the `bool.must` array of the probe query: either an exact
`term` match or a set-membership `terms` match. -/
inductive Clause where
  | term : String → String → Clause
  | terms : String → List String → Clause
  deriving DecidableEq

/-- JS truthiness of an optional string (undefined and the empty string are
falsy). -/
def optStrTruthy : Option String → Bool
  | none => false
  | some s => s ≠ ""

/-- channelValue.split(',').map(v => v.trim()). -/
def splitTrim (s : String) : List String := (s.splitOn ",").map String.trim

/-- The `bool.must` clause list built by `queryFieldExists`: always a `term`
clause on the name field; a channel clause only when both channel field and
channel value are truthy, as `term` for a single alternative and `terms` for
a comma-separated list. -/
def mustClausesFor (nameField nameValue : String) (channelField channelValue : Option String) :
    List Clause :=
  let base := [Clause.term nameField nameValue]
  if optStrTruthy channelField && optStrTruthy channelValue then
    let cf := channelField.getD ""
    let channelValues := splitTrim (channelValue.getD "")
    if channelValues.length = 1 then
      base ++ [Clause.term cf (channelValues.headD "")]
    else
      base ++ [Clause.terms cf channelValues]
  else
    base

/-- The query actually issued by `queryFieldExists`: `none` models the early
return (no search at all) when the name field or value is missing. -/
def issuedQueryFor (nameField nameValue : String) (channelField channelValue : Option String) :
    Option (List Clause) :=
  if nameField = "" ∨ nameValue = "" then none
  else some (mustClausesFor nameField nameValue channelField channelValue)

/-- queryFieldExists: early-returns `{exists:false, lastDoc:null}` when the
name field or value is missing, otherwise runs the built query against the
log store (the `search` oracle stands for the `logs-*` search round trip;
the catch-all that degrades a thrown query error to the same result is part
of the oracle). -/
def queryFieldExists (search : List Clause → QueryResult)
    (nameField nameValue : String) (channelField channelValue : Option String) : QueryResult :=
  match issuedQueryFor nameField nameValue channelField channelValue with
  | none => { exists_ := false, lastDoc := none }
  | some q => search q

/-! ## Data field completeness (calculateDataFieldCompletenessScore) -/

/-- Details block of the completeness dimension. -/
structure DataFieldCompletenessDetails where
  base_score : ℚ
  status_multiplier : ℚ
  confidence_multiplier : ℚ
  reason : String
  deriving DecidableEq

/-- Result triple of `calculateDataFieldCompletenessScore`. -/
structure CompletenessResult where
  score : ℚ
  details : DataFieldCompletenessDetails
  lastDoc : Option LastDoc
  deriving DecidableEq

/-- statusMultipliers[status] ?? 0, with the record
`{complete: 1.0, partial: 0.5, unmapped: 0.0}`. -/
def statusMultiplierLookup (status : String) : ℚ :=
  if status = "complete" then 1
  else if status = "partial" then 1 / 2
  else if status = "unmapped" then 0
  else 0

/-- confidenceMultipliers[confidence] ?? 0, with the record
`{high: 1.0, medium: 0.8, low: 0.4, "": 0.0}`. -/
def confidenceMultiplierLookup (confidence : String) : ℚ :=
  if confidence = "high" then 1
  else if confidence = "medium" then 4 / 5
  else if confidence = "low" then 2 / 5
  else if confidence = "" then 0
  else 0

/-- calculateDataFieldCompletenessScore: early-returns 0 for `unmapped`
status, otherwise probes the log store and multiplies the base score (5 when
the probe found a record) by the status and confidence multipliers, rounding
the product to two decimals. -/
def calculateDataFieldCompletenessScore (search : List Clause → QueryResult)
    (status confidence nameField nameValue : String)
    (channelField channelValue : Option String) : CompletenessResult :=
  if status = "unmapped" then
    { score := 0
      details := { base_score := 0, status_multiplier := 0, confidence_multiplier := 0
                   reason := "Status is unmapped" }
      lastDoc := none }
  else
    let statusMultiplier := statusMultiplierLookup status
    let confidenceMultiplier := confidenceMultiplierLookup confidence
    let queryResult := queryFieldExists search nameField nameValue channelField channelValue
    let baseScore : ℚ := if queryResult.exists_ then 5 else 0
    let reason := if queryResult.exists_ then "" else "Fields not found in Elasticsearch"
    let finalScore := baseScore * statusMultiplier * confidenceMultiplier
    { score := roundTo2 finalScore
      details := { base_score := baseScore, status_multiplier := statusMultiplier
                   confidence_multiplier := confidenceMultiplier, reason := reason }
      lastDoc := queryResult.lastDoc }

/-! ## Other dimension calculators -/

/-- Details block of the timeliness dimension (timestamps kept as epoch
milliseconds). -/
structure TimelinessDetails where
  last_doc_timestamp : Option ℤ
  last_doc_ingested : Option ℤ
  delta_seconds : Option ℚ
  reason : String
  deriving DecidableEq

/-- A dimension result: a score together with its details block. -/
structure ScoreDetail (α : Type) where
  score : ℚ
  details : α
  deriving DecidableEq

/-- calculateTimelinessScore: 0 when there is no record or a timestamp is
missing; otherwise banded by the ingestion delay in minutes.  An unparsable
timestamp string in the source lands in the catch branch with score 0; the
embedding carries already-parsed epoch values, so that branch is subsumed by
the missing-field cases. -/
def calculateTimelinessScore (lastDoc : Option LastDoc) : ScoreDetail TimelinessDetails :=
  match lastDoc with
  | none =>
    { score := 0
      details := { last_doc_timestamp := none, last_doc_ingested := none, delta_seconds := none
                   reason := "No document available" } }
  | some doc =>
    match doc.ingested with
    | none =>
      { score := 0
        details := { last_doc_timestamp := none, last_doc_ingested := none, delta_seconds := none
                     reason := "event.ingested field not found" } }
    | some ingested =>
      match doc.timestamp with
      | none =>
        { score := 0
          details := { last_doc_timestamp := none, last_doc_ingested := none, delta_seconds := none
                       reason := "@timestamp field not found" } }
      | some timestamp =>
        let deltaSeconds : ℚ := ((ingested : ℚ) - (timestamp : ℚ)) / 1000
        let deltaMinutes := deltaSeconds / 60
        let details : TimelinessDetails :=
          { last_doc_timestamp := some timestamp, last_doc_ingested := some ingested
            delta_seconds := some (roundTo2 deltaSeconds), reason := "" }
        if deltaMinutes < 5 then { score := 5, details := { details with reason := "Delta < 5 minutes" } }
        else if deltaMinutes < 15 then { score := 3, details := { details with reason := "Delta 5-15 minutes" } }
        else if deltaMinutes < 60 then { score := 1, details := { details with reason := "Delta 15m-1h" } }
        else { score := 0, details := { details with reason := "Delta > 1 hour" } }

/-- Details block of the consistency dimension. -/
structure ConsistencyDetails where
  reason : String
  deriving DecidableEq

/-- calculateConsistencyScore: 5 when the probe found the field, else 0. -/
def calculateConsistencyScore (fieldExists : Bool) : ScoreDetail ConsistencyDetails :=
  if fieldExists then
    { score := 5, details := { reason := "Fields standardized to ECS format" } }
  else
    { score := 0, details := { reason := "Fields not found or not standardized" } }

/-- Details block of the device completeness dimension. -/
structure DeviceCompletenessDetails where
  coverage_percent : ℤ
  reason : String
  deriving DecidableEq

/-- calculateDeviceCompletenessScore: 0 when the field was not found, else
the configured per-platform score with a derived coverage percentage. -/
def calculateDeviceCompletenessScore (fieldExists : Bool) (configuredScore : ℚ) :
    ScoreDetail DeviceCompletenessDetails :=
  if !fieldExists then
    { score := 0, details := { coverage_percent := 0, reason := "Field not found - 0% coverage" } }
  else
    { score := configuredScore
      details := { coverage_percent := jsRound (configuredScore / 5 * 100)
                   reason := if configuredScore = DEFAULT_DEVICE_COMPLETENESS_SCORE then
                       "Default score - adjust in settings based on actual device coverage"
                     else "Configured device completeness score for platform" } }

/-- Details block of the retention dimension. -/
structure RetentionDetails where
  retention_percent : ℤ
  reason : String
  deriving DecidableEq

/-- calculateRetentionScore: 0 when the field was not found, else the
configured per-platform score with a derived retention percentage. -/
def calculateRetentionScore (fieldExists : Bool) (configuredScore : ℚ) :
    ScoreDetail RetentionDetails :=
  if !fieldExists then
    { score := 0, details := { retention_percent := 0, reason := "Field not found - no data retention" } }
  else
    { score := configuredScore
      details := { retention_percent := jsRound (configuredScore / 5 * 100)
                   reason := if configuredScore = DEFAULT_RETENTION_SCORE then
                       "Default score - adjust in settings if retention limitations exist"
                     else "Configured retention score for platform" } }

/-! ## Settings getters (platform → configured score maps) -/

/-- settings[platform]: first matching key of the platform → score map. -/
def lookupSetting (settings : List (String × ℚ)) (platform : String) : Option ℚ :=
  (settings.find? (fun kv => kv.1 = platform)).map (fun kv => kv.2)

/-- Shared body of getRetentionScoreForPlatform and
getDeviceCompletenessScoreForPlatform: per-platform value or the default
when a platform is given; otherwise the mean of all configured values
rounded to 1 decimal, or the default when none are configured. -/
def getScoreForPlatform (settings : List (String × ℚ)) (defaultScore : ℚ)
    (platform : Option String) : ℚ :=
  match platform with
  | some p =>
    match lookupSetting settings p with
    | some v => v
    | none => defaultScore
  | none =>
    let configuredScores := settings.map (fun kv => kv.2)
    if configuredScores.length = 0 then defaultScore
    else roundTo1 (configuredScores.sum / configuredScores.length)

/-- getRetentionScoreForPlatform over the cached retention settings. -/
def getRetentionScoreForPlatform (settings : List (String × ℚ)) (platform : Option String) : ℚ :=
  getScoreForPlatform settings DEFAULT_RETENTION_SCORE platform

/-- getDeviceCompletenessScoreForPlatform over the cached device
completeness settings. -/
def getDeviceCompletenessScoreForPlatform (settings : List (String × ℚ))
    (platform : Option String) : ℚ :=
  getScoreForPlatform settings DEFAULT_DEVICE_COMPLETENESS_SCORE platform

/-! ## Per-log-source scoring (calculateScoresForLogSource) -/

/-- Environment of one scoring pass: the log-store search oracle, the two
settings maps (the time-boxed caches hold exactly the fetched maps), the
wall clock, the configured refresh delay and the Math.random draw used for
the jitter. -/
structure ScoringEnv where
  search : List Clause → QueryResult
  retentionSettings : List (String × ℚ)
  deviceSettings : List (String × ℚ)
  now : ℤ
  refreshDelayMs : ℤ
  rand : ℚ

/-- calculateNextExecution: now + refresh delay + (⌊rand·301⌋ + 60) seconds,
`rand` being the Math.random draw in [0,1). -/
def calculateNextExecution (now refreshDelayMs : ℤ) (rand : ℚ) : ℤ :=
  let randomSeconds := ⌊rand * (360 - 60 + 1)⌋ + 60
  now + refreshDelayMs + randomSeconds * 1000

/-- The scores block attached to a log source reference after scoring. -/
structure Scores where
  next_execution : ℤ
  quality_score : ℚ
  data_field_completeness : ScoreDetail DataFieldCompletenessDetails
  timeliness : ScoreDetail TimelinessDetails
  consistency : ScoreDetail ConsistencyDetails
  device_completeness : ScoreDetail DeviceCompletenessDetails
  retention : ScoreDetail RetentionDetails
  deriving DecidableEq

/-- The five dimension scores of a scores block, in the order they are
averaged by the source. -/
def dimensionScores (s : Scores) : List ℚ :=
  [s.data_field_completeness.score, s.timeliness.score, s.consistency.score,
   s.device_completeness.score, s.retention.score]

/-- calculateScoresForLogSource: probes the log store (including the channel
clause only when the mapping status is complete), computes the five
dimension scores and the rounded mean, and stamps the next execution. -/
def calculateScoresForLogSource (env : ScoringEnv) (logSourceRef : LogSourceReference)
    (platform : Option String) : Scores :=
  let mapping := logSourceRef.mapping
  let status := mapping.status
  let confidence := mapping.confidence
  let ecs := mapping.ecs
  let useChannel := status = "complete"
  let completenessResult := calculateDataFieldCompletenessScore env.search status confidence
    ecs.name_field ecs.name_value
    (if useChannel then some ecs.channel_field else none)
    (if useChannel then some ecs.channel_value else none)
  let fieldExists := completenessResult.details.base_score > 0
  let timelinessResult := calculateTimelinessScore completenessResult.lastDoc
  let consistencyResult := calculateConsistencyScore fieldExists
  let configuredDeviceCompletenessScore :=
    getDeviceCompletenessScoreForPlatform env.deviceSettings platform
  let deviceCompletenessResult :=
    calculateDeviceCompletenessScore fieldExists configuredDeviceCompletenessScore
  let configuredRetentionScore := getRetentionScoreForPlatform env.retentionSettings platform
  let retentionResult := calculateRetentionScore fieldExists configuredRetentionScore
  let qualityScore := roundTo1
    ((completenessResult.score + timelinessResult.score + consistencyResult.score +
      deviceCompletenessResult.score + retentionResult.score) / 5)
  { next_execution := calculateNextExecution env.now env.refreshDelayMs env.rand
    quality_score := qualityScore
    data_field_completeness := { score := completenessResult.score
                                 details := completenessResult.details }
    timeliness := timelinessResult
    consistency := consistencyResult
    device_completeness := deviceCompletenessResult
    retention := retentionResult }

/-- The clause list of the completeness probe issued for a log source
reference (`none` when the early return fires and no query is issued):
exactly the query built by calculateScoresForLogSource via
calculateDataFieldCompletenessScore and queryFieldExists. -/
def probeClausesForLogSource (logSourceRef : LogSourceReference) : Option (List Clause) :=
  let ecs := logSourceRef.mapping.ecs
  let useChannel := logSourceRef.mapping.status = "complete"
  issuedQueryFor ecs.name_field ecs.name_value
    (if useChannel then some ecs.channel_field else none)
    (if useChannel then some ecs.channel_value else none)

/-! ## Per-analytic processing (processAnalytic) -/

/-- ECS mapping block carrying the scores of the last pass. -/
structure EcsMappingWithScores where
  name_field : String
  name_value : String
  channel_field : String
  channel_value : String
  scores : Scores
  deriving DecidableEq

/-- Mapping block of a scored log source reference. -/
structure MappingWithScores where
  ecs : EcsMappingWithScores
  status : String
  confidence : String
  notes : String
  verified : Bool
  deriving DecidableEq

/-- A scored log source reference. -/
structure LogSourceReferenceWithScores where
  x_mitre_data_component_ref : String
  data_component_name : String
  name : String
  channel : String
  mapping : MappingWithScores
  deriving DecidableEq

/-- An analytic document of the results index. -/
structure AnalyticDocumentWithScores where
  id : String
  name : String
  x_mitre_log_source_references : List LogSourceReferenceWithScores
  deriving DecidableEq

/-- Attach a freshly computed scores block to a log source reference. -/
def attachScores (ref : LogSourceReference) (scores : Scores) : LogSourceReferenceWithScores :=
  { x_mitre_data_component_ref := ref.x_mitre_data_component_ref
    data_component_name := ref.data_component_name
    name := ref.name
    channel := ref.channel
    mapping := { ecs := { name_field := ref.mapping.ecs.name_field
                          name_value := ref.mapping.ecs.name_value
                          channel_field := ref.mapping.ecs.channel_field
                          channel_value := ref.mapping.ecs.channel_value
                          scores := scores }
                 status := ref.mapping.status
                 confidence := ref.mapping.confidence
                 notes := ref.mapping.notes
                 verified := ref.mapping.verified } }

/-- processAnalytic: scores every log source reference of the analytic. -/
def processAnalytic (env : ScoringEnv) (analytic : AnalyticDocument)
    (platform : Option String) : AnalyticDocumentWithScores :=
  { id := analytic.id
    name := analytic.name
    x_mitre_log_source_references := analytic.x_mitre_log_source_references.map
      (fun ref => attachScores ref (calculateScoresForLogSource env ref platform)) }

/-- The field-by-field projection applied by the smart pass before handing a
stored result back to processAnalytic (drops the scores block). -/
def stripScores (a : AnalyticDocumentWithScores) : AnalyticDocument :=
  { id := a.id
    name := a.name
    x_mitre_log_source_references := a.x_mitre_log_source_references.map (fun ref =>
      { x_mitre_data_component_ref := ref.x_mitre_data_component_ref
        data_component_name := ref.data_component_name
        name := ref.name
        channel := ref.channel
        mapping := { ecs := { name_field := ref.mapping.ecs.name_field
                              name_value := ref.mapping.ecs.name_value
                              channel_field := ref.mapping.ecs.channel_field
                              channel_value := ref.mapping.ecs.channel_value }
                     status := ref.mapping.status
                     confidence := ref.mapping.confidence
                     notes := ref.mapping.notes
                     verified := ref.mapping.verified } }) }

/-! ## Full pass (processAllAnalytics) -/

/-- One response of the scrolled scan over the ECS index: the batch of hits
(a hit without `_source` is `none`) and the scroll id carried by the
response. -/
structure ScrollResponse where
  hits : List (Option AnalyticDocument)
  scrollId : Option String
  deriving DecidableEq

/-- Environment of a full pass: whether the ECS index exists, the stream of
scroll responses (`responses[0]` answers the initial search, `responses[k+1]`
the k-th continuation; reading past the end yields an empty batch, as the
live store does once the scan is exhausted), and the scoring environment. -/
structure FullPassEnv where
  ecsIndexExists : Bool
  responses : List ScrollResponse
  scoring : ScoringEnv

/-- Fault injection for a full pass, marking every point where the client
can throw: the initial search, the k-th scroll continuation, scoring or
indexing a given analytic (both caught per item), and the final refresh. -/
structure FullFaults where
  initialSearchFails : Bool
  scrollFailsAt : Option ℕ
  processFailsFor : List String
  writeFailsFor : List String
  refreshFails : Bool
  deriving DecidableEq

/-- A fault-free full pass. -/
def noFullFaults : FullFaults :=
  { initialSearchFails := false, scrollFailsAt := none, processFailsFor := []
    writeFailsFor := [], refreshFails := false }

/-- The for-loop body over one batch of hits: skips hits without `_source`,
skips analytics without log source references, catches per-item scoring and
indexing errors, and returns the documents written to the results index. -/
def processBatch (sc : ScoringEnv) (f : FullFaults) (hits : List (Option AnalyticDocument)) :
    List AnalyticDocumentWithScores :=
  hits.filterMap (fun hit =>
    match hit with
    | none => none
    | some analytic =>
      if analytic.x_mitre_log_source_references.isEmpty then none
      else if f.processFailsFor.contains analytic.id || f.writeFailsFor.contains analytic.id then
        none
      else some (processAnalytic sc analytic none))

/-- Result of the scrolled while-loop: the writes that were performed, the
scroll id held when the loop ended, and whether a scroll continuation threw
(in which case the error is about to propagate). -/
structure ScanResult where
  writes : List AnalyticDocumentWithScores
  finalScrollId : Option String
  errored : Bool
  deriving DecidableEq

/-- The while-loop of processAllAnalytics: processes the current batch, then
continues scrolling while a scroll id is at hand, breaking when the response
carried none.  `k` is the index of the current response, `fuel` a bound on
the remaining iterations (responses past the stream are empty, so
`responses.length + 1` fuel always suffices to reach the empty batch). -/
def fullScanLoop (env : FullPassEnv) (f : FullFaults) :
    ℕ → List (Option AnalyticDocument) → Option String → ℕ →
    List AnalyticDocumentWithScores → ScanResult
  | 0, _, scrollId, _, acc => { writes := acc, finalScrollId := scrollId, errored := false }
  | fuel + 1, hits, scrollId, k, acc =>
    if hits.isEmpty then { writes := acc, finalScrollId := scrollId, errored := false }
    else
      let acc2 := acc ++ processBatch env.scoring f hits
      match scrollId with
      | some sid =>
        if f.scrollFailsAt = some k then
          { writes := acc2, finalScrollId := some sid, errored := true }
        else
          let r := env.responses.getD (k + 1) { hits := [], scrollId := some sid }
          fullScanLoop env f fuel r.hits r.scrollId (k + 1) acc2
      | none => { writes := acc2, finalScrollId := none, errored := false }

/-- Outcome of a full pass: whether it returned or threw, the writes it
performed, whether a scroll was opened, and whether clearScroll ran. -/
structure FullOutcome where
  result : Except Unit Unit
  writes : List AnalyticDocumentWithScores
  scrollOpened : Bool
  scrollCleared : Bool

/-- processAllAnalytics: early-returns when the ECS index is missing, runs
the scrolled scan, clears the scroll when a scroll id is held after the
loop, then refreshes the results index.  An error of a scroll continuation
or of the refresh is logged and rethrown; clearScroll sits between the loop
and the refresh, with no guaranteed-cleanup block around it. -/
def processAllAnalytics (env : FullPassEnv) (f : FullFaults) : FullOutcome :=
  if !env.ecsIndexExists then
    { result := Except.ok (), writes := [], scrollOpened := false, scrollCleared := false }
  else if f.initialSearchFails then
    { result := Except.error (), writes := [], scrollOpened := false, scrollCleared := false }
  else
    let r0 := env.responses.getD 0 { hits := [], scrollId := none }
    let scan := fullScanLoop env f (env.responses.length + 1) r0.hits r0.scrollId 0 []
    if scan.errored then
      { result := Except.error (), writes := scan.writes, scrollOpened := true
        scrollCleared := false }
    else
      let cleared := scan.finalScrollId.isSome
      if f.refreshFails then
        { result := Except.error (), writes := scan.writes, scrollOpened := true
          scrollCleared := cleared }
      else
        { result := Except.ok (), writes := scan.writes, scrollOpened := true
          scrollCleared := cleared }

/-! ## Smart pass and concurrency guard (DataQualityTaskRunner) -/

/-- True when some log source reference of the stored result document has a
next_execution that has elapsed: the nested range query of the due-analytics
search. -/
def analyticHasDueRef (now : ℤ) (a : AnalyticDocumentWithScores) : Bool :=
  a.x_mitre_log_source_references.any
    (fun ref => ref.mapping.ecs.scores.next_execution ≤ now)

/-- getAnalyticsNeedingRecalculation: a single search over the results index
with size 100 and no paging, returning the stored documents with an elapsed
next_execution; a search failure is caught and yields the empty list. -/
def getAnalyticsNeedingRecalculation (searchFails : Bool) (now : ℤ)
    (resultsStore : List AnalyticDocumentWithScores) : List AnalyticDocumentWithScores :=
  if searchFails then []
  else ((resultsStore.filter (analyticHasDueRef now)).take 100)

/-- Environment of the smart pass: the exclusive-run flag, whether the
results index exists, its documents, the full-pass environment reused when
the smart pass degrades to an init, and the scoring environment. -/
structure SmartEnv where
  isRunning : Bool
  resultsIndexExists : Bool
  resultsStore : List AnalyticDocumentWithScores
  full : FullPassEnv
  scoring : ScoringEnv

/-- Fault injection for a smart pass: the exists and count round trips, the
due-analytics search (caught inside), per-item scoring and indexing errors
(caught per item), the final refresh, and the faults handed to an inner full
pass. -/
structure SmartFaults where
  existsCheckFails : Bool
  countFails : Bool
  recalcSearchFails : Bool
  processFailsFor : List String
  writeFailsFor : List String
  refreshFails : Bool
  fullFaults : FullFaults
  deriving DecidableEq

/-- A fault-free smart pass. -/
def noSmartFaults : SmartFaults :=
  { existsCheckFails := false, countFails := false, recalcSearchFails := false
    processFailsFor := [], writeFailsFor := [], refreshFails := false
    fullFaults := noFullFaults }

/-- The action reported by the smart pass. -/
inductive SmartAction where
  | init
  | update
  | none
  deriving DecidableEq

/-- The value returned by runSmartScoringWithClient. -/
structure SmartResult where
  action : SmartAction
  count : ℤ
  deriving DecidableEq

/-- Outcome of a smart pass: the returned value or the propagated error, the
writes performed by the update loop, the inner full pass when one ran, and
the exclusive-run flag after the call. -/
structure SmartOutcome where
  result : Except Unit SmartResult
  writes : List AnalyticDocumentWithScores
  fullPass : Option FullOutcome
  finalIsRunning : Bool

/-- runSmartScoringWithClient: no-op when a pass is already in flight;
otherwise sets the exclusive-run flag, degrades to a full init pass when the
results index is absent or empty, and otherwise recomputes and writes back
the due analytics.  Errors of the body are rethrown after the catch; the
finally block restores the logs client and clears the flag on every path. -/
def runSmartScoringWithClient (env : SmartEnv) (f : SmartFaults) : SmartOutcome :=
  if env.isRunning then
    { result := Except.ok { action := SmartAction.none, count := 0 }, writes := []
      fullPass := Option.none, finalIsRunning := env.isRunning }
  else if f.existsCheckFails then
    { result := Except.error (), writes := [], fullPass := Option.none, finalIsRunning := false }
  else if !env.resultsIndexExists then
    let fp := processAllAnalytics env.full f.fullFaults
    match fp.result with
    | Except.error _ =>
      { result := Except.error (), writes := [], fullPass := some fp, finalIsRunning := false }
    | Except.ok _ =>
      { result := Except.ok { action := SmartAction.init, count := -1 }, writes := []
        fullPass := some fp, finalIsRunning := false }
  else if f.countFails then
    { result := Except.error (), writes := [], fullPass := Option.none, finalIsRunning := false }
  else if env.resultsStore.length = 0 then
    let fp := processAllAnalytics env.full f.fullFaults
    match fp.result with
    | Except.error _ =>
      { result := Except.error (), writes := [], fullPass := some fp, finalIsRunning := false }
    | Except.ok _ =>
      { result := Except.ok { action := SmartAction.init, count := -1 }, writes := []
        fullPass := some fp, finalIsRunning := false }
  else
    let dueAnalytics :=
      getAnalyticsNeedingRecalculation f.recalcSearchFails env.scoring.now env.resultsStore
    if dueAnalytics.length = 0 then
      { result := Except.ok { action := SmartAction.none, count := 0 }, writes := []
        fullPass := Option.none, finalIsRunning := false }
    else
      let writes := dueAnalytics.filterMap (fun a =>
        if f.processFailsFor.contains a.id || f.writeFailsFor.contains a.id then Option.none
        else some (processAnalytic env.scoring (stripScores a) Option.none))
      if f.refreshFails then
        { result := Except.error (), writes := writes, fullPass := Option.none
          finalIsRunning := false }
      else
        { result := Except.ok { action := SmartAction.update, count := dueAnalytics.length }
          writes := writes, fullPass := Option.none, finalIsRunning := false }

/-- runFullCalculation: no-op when a pass is already in flight; otherwise
runs a full pass with the flag set, catching (not rethrowing) its error, and
clears the flag in the finally block. -/
def runFullCalculation (isRunning : Bool) (env : FullPassEnv) (f : FullFaults) :
    Option FullOutcome × Bool :=
  if isRunning then (Option.none, isRunning)
  else (some (processAllAnalytics env f), false)

/-! ## Taxonomy data model (src: common/types) -/

/-- A tactic of the fixed catalog. -/
structure MitreTactic where
  id : String
  name : String
  shortName : String
  description : String
  externalId : String
  url : String
  deriving DecidableEq

/-- An analytic of the taxonomy graph. -/
structure MitreAnalytic where
  id : String
  name : String
  externalId : String
  platforms : List String
  deriving DecidableEq

/-- A detection strategy attached to a technique. -/
structure MitreDetectionStrategy where
  id : String
  name : String
  externalId : String
  url : String
  analytics : List MitreAnalytic
  deriving DecidableEq

/-- A technique or subtechnique; the optional `detectionStrategies` array of
the source, filled only by the linking step, is modelled as a list that the
conversion leaves empty. -/
structure MitreTechnique where
  id : String
  name : String
  externalId : String
  url : String
  description : String
  tacticShortNames : List String
  isSubtechnique : Bool
  parentTechniqueId : Option String
  detectionStrategies : List MitreDetectionStrategy
  deriving DecidableEq

/-- A parent technique of the built matrix together with its attached
subtechnique array (the optional `subtechniques` field of the source, set
only on the copies placed in the matrix; attached subtechniques never carry
a nested array of their own). -/
structure TechniqueWithSubtechniques where
  technique : MitreTechnique
  subtechniques : List MitreTechnique
  deriving DecidableEq

/-- One column of the matrix. -/
structure TacticWithTechniques where
  tactic : MitreTactic
  techniques : List TechniqueWithSubtechniques
  deriving DecidableEq

/-- The built taxonomy. -/
structure MitreMatrixData where
  tactics : List TacticWithTechniques
  availablePlatforms : List String
  deriving DecidableEq

/-- The fixed, ordered catalog of the 14 tactics (MITRE_TACTICS_ORDER). -/
def MITRE_TACTICS_ORDER : List MitreTactic :=
  [{ id := "x-mitre-tactic--daa4cbb1-b4f4-4723-a824-7f1efd6e0592", name := "Reconnaissance"
     shortName := "reconnaissance"
     description := "The adversary is trying to gather information they can use to plan future operations."
     externalId := "TA0043", url := "https://attack.mitre.org/tactics/TA0043" },
   { id := "x-mitre-tactic--d679bca2-e57d-4935-8650-8031c87a4400", name := "Resource Development"
     shortName := "resource-development"
     description := "The adversary is trying to establish resources they can use to support operations."
     externalId := "TA0042", url := "https://attack.mitre.org/tactics/TA0042" },
   { id := "x-mitre-tactic--ffd5bcee-6e16-4dd2-8eca-7b3beedf33ca", name := "Initial Access"
     shortName := "initial-access"
     description := "The adversary is trying to get into your network."
     externalId := "TA0001", url := "https://attack.mitre.org/tactics/TA0001" },
   { id := "x-mitre-tactic--4ca45d45-df4d-4613-8980-bac22d278fa5", name := "Execution"
     shortName := "execution"
     description := "The adversary is trying to run malicious code."
     externalId := "TA0002", url := "https://attack.mitre.org/tactics/TA0002" },
   { id := "x-mitre-tactic--5bc1d813-693e-4823-9961-abf9af4b0e92", name := "Persistence"
     shortName := "persistence"
     description := "The adversary is trying to maintain their foothold."
     externalId := "TA0003", url := "https://attack.mitre.org/tactics/TA0003" },
   { id := "x-mitre-tactic--5e29b093-294e-49e9-a803-dab3d73b77dd", name := "Privilege Escalation"
     shortName := "privilege-escalation"
     description := "The adversary is trying to gain higher-level permissions."
     externalId := "TA0004", url := "https://attack.mitre.org/tactics/TA0004" },
   { id := "x-mitre-tactic--78b23412-0651-46d7-a540-170a1ce8bd5a", name := "Defense Evasion"
     shortName := "defense-evasion"
     description := "The adversary is trying to avoid being detected."
     externalId := "TA0005", url := "https://attack.mitre.org/tactics/TA0005" },
   { id := "x-mitre-tactic--2558fd61-8c75-4730-94c4-11926db2a263", name := "Credential Access"
     shortName := "credential-access"
     description := "The adversary is trying to steal account names and passwords."
     externalId := "TA0006", url := "https://attack.mitre.org/tactics/TA0006" },
   { id := "x-mitre-tactic--c17c5845-175e-4421-9713-829d0573dbc9", name := "Discovery"
     shortName := "discovery"
     description := "The adversary is trying to figure out your environment."
     externalId := "TA0007", url := "https://attack.mitre.org/tactics/TA0007" },
   { id := "x-mitre-tactic--7141578b-e50b-4dcc-bfa4-08a8dd689e9e", name := "Lateral Movement"
     shortName := "lateral-movement"
     description := "The adversary is trying to move through your environment."
     externalId := "TA0008", url := "https://attack.mitre.org/tactics/TA0008" },
   { id := "x-mitre-tactic--d108ce10-2419-4cf9-a774-46161d6c6cfe", name := "Collection"
     shortName := "collection"
     description := "The adversary is trying to gather data of interest to their goal."
     externalId := "TA0009", url := "https://attack.mitre.org/tactics/TA0009" },
   { id := "x-mitre-tactic--f72804c5-f15a-449e-a5da-2eecd181f813", name := "Command and Control"
     shortName := "command-and-control"
     description := "The adversary is trying to communicate with compromised systems to control them."
     externalId := "TA0011", url := "https://attack.mitre.org/tactics/TA0011" },
   { id := "x-mitre-tactic--9a4e74ab-5008-408c-84bf-a10dfbc53462", name := "Exfiltration"
     shortName := "exfiltration"
     description := "The adversary is trying to steal data."
     externalId := "TA0010", url := "https://attack.mitre.org/tactics/TA0010" },
   { id := "x-mitre-tactic--5569339b-94c2-49ee-afb3-2222936582c8", name := "Impact"
     shortName := "impact"
     description := "The adversary is trying to manipulate, interrupt, or destroy your systems and data."
     externalId := "TA0040", url := "https://attack.mitre.org/tactics/TA0040" }]

/-! ## STIX object model (src: mitre_matrix_parser) -/

/-- An external reference entry of a STIX object. -/
structure StixExternalReference where
  source_name : String
  external_id : Option String
  url : Option String
  deriving DecidableEq

/-- A kill-chain phase entry of a STIX object. -/
structure StixKillChainPhase where
  kill_chain_name : String
  phase_name : String
  deriving DecidableEq

/-- A raw object of the STIX bundle, with every mixed-shape field optional. -/
structure StixObject where
  type : String
  id : String
  name : Option String
  description : Option String
  external_references : Option (List StixExternalReference)
  kill_chain_phases : Option (List StixKillChainPhase)
  x_mitre_is_subtechnique : Option Bool
  x_mitre_deprecated : Option Bool
  revoked : Option Bool
  x_mitre_analytic_refs : Option (List String)
  x_mitre_platforms : Option (List String)
  relationship_type : Option String
  source_ref : Option String
  target_ref : Option String
  deriving DecidableEq

/-- A raw STIX object with every optional field unset, for building concrete
bundles. -/
def emptyStixObject : StixObject :=
  { type := "", id := "", name := none, description := none, external_references := none
    kill_chain_phases := none, x_mitre_is_subtechnique := none, x_mitre_deprecated := none
    revoked := none, x_mitre_analytic_refs := none, x_mitre_platforms := none
    relationship_type := none, source_ref := none, target_ref := none }

/-- JS truthiness of an optional boolean flag. -/
def optBoolTruthy : Option Bool → Bool
  | some b => b
  | none => false

/-- A typed attack-pattern object after extraction. -/
structure StixAttackPattern where
  id : String
  name : String
  description : String
  external_references : List StixExternalReference
  kill_chain_phases : Option (List StixKillChainPhase)
  x_mitre_is_subtechnique : Option Bool
  x_mitre_deprecated : Option Bool
  revoked : Option Bool
  deriving DecidableEq

/-- A typed detection-strategy object after extraction. -/
structure StixDetectionStrategy where
  id : String
  name : String
  external_references : List StixExternalReference
  x_mitre_analytic_refs : Option (List String)
  x_mitre_deprecated : Option Bool
  deriving DecidableEq

/-- A typed analytic object after extraction. -/
structure StixAnalytic where
  id : String
  name : String
  external_references : List StixExternalReference
  x_mitre_platforms : Option (List String)
  x_mitre_deprecated : Option Bool
  deriving DecidableEq

/-- A typed detects relationship after extraction. -/
structure StixRelationship where
  id : String
  relationship_type : String
  source_ref : String
  target_ref : String
  deriving DecidableEq

/-- Map.set of a JS Map modelled on an insertion-ordered association list:
an existing key is updated in place, a new key is appended. -/
def mapSet (l : List (String × α)) (k : String) (v : α) : List (String × α) :=
  if l.any (fun kv => kv.1 = k) then
    l.map (fun kv => if kv.1 = k then (k, v) else kv)
  else
    l ++ [(k, v)]

/-- The filter of extractAttackPatterns: attack-pattern objects that are
neither deprecated nor revoked and carry a truthy name and an
external-references field. -/
def keepAttackPattern (obj : StixObject) : Bool :=
  obj.type = "attack-pattern" &&
  !optBoolTruthy obj.x_mitre_deprecated &&
  !optBoolTruthy obj.revoked &&
  optStrTruthy obj.name &&
  obj.external_references.isSome

/-- The projection of extractAttackPatterns into the typed record. -/
def toStixAttackPattern (obj : StixObject) : StixAttackPattern :=
  { id := obj.id
    name := obj.name.getD ""
    description := obj.description.getD ""
    external_references := obj.external_references.getD []
    kill_chain_phases := obj.kill_chain_phases
    x_mitre_is_subtechnique := obj.x_mitre_is_subtechnique
    x_mitre_deprecated := obj.x_mitre_deprecated
    revoked := obj.revoked }

/-- extractAttackPatterns: keeps attack-pattern objects that are neither
deprecated nor revoked and carry a truthy name and an external-references
field, projecting them into the typed record. -/
def extractAttackPatterns (objects : List StixObject) : List StixAttackPattern :=
  (objects.filter keepAttackPattern).map toStixAttackPattern

/-- The filter of extractDetectionStrategies: detection-strategy objects
that are not deprecated and carry a truthy name and an external-references
field.  The revoked flag is not consulted. -/
def keepDetectionStrategy (obj : StixObject) : Bool :=
  obj.type = "x-mitre-detection-strategy" &&
  !optBoolTruthy obj.x_mitre_deprecated &&
  optStrTruthy obj.name &&
  obj.external_references.isSome

/-- The projection of extractDetectionStrategies into the typed record. -/
def toStixDetectionStrategy (obj : StixObject) : StixDetectionStrategy :=
  { id := obj.id
    name := obj.name.getD ""
    external_references := obj.external_references.getD []
    x_mitre_analytic_refs := obj.x_mitre_analytic_refs
    x_mitre_deprecated := obj.x_mitre_deprecated }

/-- extractDetectionStrategies: a Map keyed by STIX id over the
detection-strategy objects that are not deprecated and carry a truthy name
and an external-references field (the revoked flag is not consulted). -/
def extractDetectionStrategies (objects : List StixObject) :
    List (String × StixDetectionStrategy) :=
  objects.foldl (fun strategies obj =>
    if keepDetectionStrategy obj then
      mapSet strategies obj.id (toStixDetectionStrategy obj)
    else strategies) []

/-- The filter of extractAnalytics: analytic objects that are not deprecated
and carry a truthy name and an external-references field.  The revoked flag
is not consulted. -/
def keepAnalytic (obj : StixObject) : Bool :=
  obj.type = "x-mitre-analytic" &&
  !optBoolTruthy obj.x_mitre_deprecated &&
  optStrTruthy obj.name &&
  obj.external_references.isSome

/-- The projection of extractAnalytics into the typed record. -/
def toStixAnalytic (obj : StixObject) : StixAnalytic :=
  { id := obj.id
    name := obj.name.getD ""
    external_references := obj.external_references.getD []
    x_mitre_platforms := obj.x_mitre_platforms
    x_mitre_deprecated := obj.x_mitre_deprecated }

/-- extractAnalytics: a Map keyed by STIX id over the analytic objects that
are not deprecated and carry a truthy name and an external-references field
(the revoked flag is not consulted). -/
def extractAnalytics (objects : List StixObject) : List (String × StixAnalytic) :=
  objects.foldl (fun analyticsMap obj =>
    if keepAnalytic obj then
      mapSet analyticsMap obj.id (toStixAnalytic obj)
    else analyticsMap) []

/-- extractDetectsRelationships: keeps non-deprecated relationship objects of
type detects with truthy source and target refs. -/
def extractDetectsRelationships (objects : List StixObject) : List StixRelationship :=
  (objects.filter (fun obj =>
    obj.type = "relationship" &&
    obj.relationship_type = some "detects" &&
    !optBoolTruthy obj.x_mitre_deprecated &&
    optStrTruthy obj.source_ref &&
    optStrTruthy obj.target_ref)).map (fun obj =>
    { id := obj.id
      relationship_type := (obj.relationship_type).getD ""
      source_ref := (obj.source_ref).getD ""
      target_ref := (obj.target_ref).getD "" })

/-! ## Taxonomy graph construction -/

/-- externalId.replace(".", "/") of the source: a JS string replace with a
string pattern substitutes the first occurrence only. -/
def replaceFirst (s pat repl : String) : String :=
  match s.splitOn pat with
  | [] => s
  | [x] => x
  | x :: rest => x ++ repl ++ String.intercalate pat rest

/-- The canonical-registry reference of a STIX object: the first external
reference whose source is mitre-attack with a truthy external id. -/
def findMitreRef (refs : List StixExternalReference) : Option StixExternalReference :=
  refs.find? (fun ref => ref.source_name = "mitre-attack" && optStrTruthy ref.external_id)

/-- convertToTechniques: derives external id, subtechnique flag, parent id
(substring before the first dot of the external id), tactic short names
(mitre-attack kill-chain phases only) and the canonical URL fallback. -/
def convertToTechniques (attackPatterns : List StixAttackPattern) : List MitreTechnique :=
  attackPatterns.map (fun pattern =>
    let mitreRef := findMitreRef pattern.external_references
    let externalId := (mitreRef.bind (fun r => r.external_id)).getD ""
    let isSubtechnique := pattern.x_mitre_is_subtechnique = some true
    let parentTechniqueId :=
      if isSubtechnique && externalId.contains '.' then
        some ((externalId.splitOn ".").headD "")
      else none
    let tacticShortNames := ((pattern.kill_chain_phases.getD []).filter
      (fun phase => phase.kill_chain_name = "mitre-attack")).map
      (fun phase => phase.phase_name)
    let refUrl := (mitreRef.bind (fun r => r.url)).getD ""
    { id := pattern.id
      name := pattern.name
      externalId := externalId
      url := if refUrl = "" then
          "https://attack.mitre.org/techniques/" ++ replaceFirst externalId "." "/"
        else refUrl
      description := pattern.description
      tacticShortNames := tacticShortNames
      isSubtechnique := isSubtechnique
      parentTechniqueId := parentTechniqueId
      detectionStrategies := [] })

/-- collectAvailablePlatforms: the set union of the platform arrays of all
extracted analytics, sorted lexicographically. -/
def collectAvailablePlatforms (analyticsMap : List (String × StixAnalytic)) : List String :=
  ((analyticsMap.map (fun kv => kv.2)).flatMap
    (fun analytic => analytic.x_mitre_platforms.getD [])).dedup.mergeSort
    (fun a b => decide (a ≤ b))

/-- The detection-strategy projection pushed onto a technique for one
resolved detects relationship: canonical ids of the strategy and of each
resolved analytic via the mitre-attack reference rule. -/
def strategyProjection (analyticsMap : List (String × StixAnalytic))
    (strategy : StixDetectionStrategy) : MitreDetectionStrategy :=
  let mitreRef := findMitreRef strategy.external_references
  let analyticsForStrategy := (strategy.x_mitre_analytic_refs.getD []).filterMap
    (fun analyticRef =>
      ((analyticsMap.find? (fun kv => kv.1 = analyticRef)).map (fun kv => kv.2)).map
        (fun analytic =>
          { id := analytic.id
            name := analytic.name
            externalId := ((findMitreRef analytic.external_references).bind
              (fun r => r.external_id)).getD ""
            platforms := analytic.x_mitre_platforms.getD [] }))
  { id := strategy.id
    name := strategy.name
    externalId := (mitreRef.bind (fun r => r.external_id)).getD ""
    url := (mitreRef.bind (fun r => r.url)).getD ""
    analytics := analyticsForStrategy }

/-- linkDetectionStrategiesToTechniques: for every detects relationship whose
source resolves to an extracted strategy and whose target resolves to a
technique, appends the strategy projection to that technique, in relationship
order.  The in-place mutation of the source becomes a per-technique
collection (STIX ids are unique, so the id-keyed technique map of the source
resolves each technique to itself). -/
def linkDetectionStrategiesToTechniques (techniques : List MitreTechnique)
    (detectionStrategies : List (String × StixDetectionStrategy))
    (analyticsMap : List (String × StixAnalytic))
    (detectsRelationships : List StixRelationship) : List MitreTechnique :=
  techniques.map (fun technique =>
    let attached := detectsRelationships.filterMap (fun relationship =>
      if relationship.target_ref = technique.id then
        ((detectionStrategies.find? (fun kv => kv.1 = relationship.source_ref)).map
          (fun kv => kv.2)).map (strategyProjection analyticsMap)
      else none)
    { technique with detectionStrategies := technique.detectionStrategies ++ attached })

/-- Alphabetical sort by name used by buildMatrix (localeCompare modelled as
the code-unit order on the names). -/
def sortByName (l : List MitreTechnique) : List MitreTechnique :=
  l.mergeSort (fun a b => decide (a.name ≤ b.name))

/-- buildMatrix: partitions techniques into parents and subtechniques,
attaches each subtechnique to the parent whose external id matches its
parent id (unmatched subtechniques are dropped), sorts subtechnique lists
and tactic columns alphabetically, and selects for each of the 14 fixed
tactics the parents listing its short name. -/
def buildMatrix (techniques : List MitreTechnique) (availablePlatforms : List String) :
    MitreMatrixData :=
  let parentTechniques := techniques.filter (fun t => !t.isSubtechnique)
  let subtechniques := techniques.filter (fun t => t.isSubtechnique)
  let techniqueMap := parentTechniques.foldl (fun m technique =>
    mapSet m technique.externalId { technique := technique, subtechniques := [] })
    ([] : List (String × TechniqueWithSubtechniques))
  let techniqueMap := subtechniques.foldl (fun m subtechnique =>
    match subtechnique.parentTechniqueId with
    | some parentId => m.map (fun kv =>
        if kv.1 = parentId then
          (kv.1, { kv.2 with subtechniques := kv.2.subtechniques ++ [subtechnique] })
        else kv)
    | none => m) techniqueMap
  let techniqueMap := techniqueMap.map (fun kv =>
    (kv.1, { kv.2 with subtechniques := sortByName kv.2.subtechniques }))
  let tactics := MITRE_TACTICS_ORDER.map (fun tactic =>
    let tacticTechniques := ((techniqueMap.map (fun kv => kv.2)).filter
      (fun entry => entry.technique.tacticShortNames.contains tactic.shortName)).mergeSort
      (fun a b => decide (a.technique.name ≤ b.technique.name))
    { tactic := tactic, techniques := tacticTechniques })
  { tactics := tactics, availablePlatforms := availablePlatforms }

/-- getEmptyTactics: the 14 fixed tactics with empty technique lists. -/
def getEmptyTactics : List TacticWithTechniques :=
  MITRE_TACTICS_ORDER.map (fun tactic => { tactic := tactic, techniques := [] })

/-- Outcome of loadStixData: the local snapshot file can be missing, fail to
read, or fail to parse; each of those is caught inside loadStixData. -/
inductive StixLoadOutcome where
  | fileMissing
  | readError
  | parseError
  | parsed (objects : List StixObject)

/-- loadStixData: `none` for each caught failure, the decoded object list
otherwise. -/
def loadStixData : StixLoadOutcome → Option (List StixObject)
  | StixLoadOutcome.fileMissing => none
  | StixLoadOutcome.readError => none
  | StixLoadOutcome.parseError => none
  | StixLoadOutcome.parsed objects => some objects

/-- parseMatrix: degrades to the empty-but-structurally-valid taxonomy when
the snapshot cannot be loaded, otherwise runs the extraction, conversion,
linking and matrix build pipeline. -/
def parseMatrix (load : StixLoadOutcome) : MitreMatrixData :=
  match loadStixData load with
  | none => { tactics := getEmptyTactics, availablePlatforms := [] }
  | some objects =>
    let attackPatterns := extractAttackPatterns objects
    let detectionStrategies := extractDetectionStrategies objects
    let analyticsMap := extractAnalytics objects
    let detectsRelationships := extractDetectsRelationships objects
    let techniques := convertToTechniques attackPatterns
    let linked := linkDetectionStrategiesToTechniques techniques detectionStrategies
      analyticsMap detectsRelationships
    let availablePlatforms := collectAvailablePlatforms analyticsMap
    buildMatrix linked availablePlatforms

/-- Status multiplier table as the specification words it: complete 1.0,
partial 0.5, any unrecognized status 0. -/
def specStatusMultiplier (status : String) : ℚ :=
  if status = "complete" then 1
  else if status = "partial" then 1 / 2
  else 0

/-- Confidence multiplier table as the specification words it: high 1.0,
medium 0.8, low 0.4, unset or unrecognized 0. -/
def specConfidenceMultiplier (confidence : String) : ℚ :=
  if confidence = "high" then 1
  else if confidence = "medium" then 4 / 5
  else if confidence = "low" then 2 / 5
  else 0

/-- The channel clause built for a truthy channel field and value: a `term`
clause for a single alternative, a `terms` clause for a comma-separated
list. -/
def channelClauseFor (channelField channelValue : String) : Clause :=
  let channelValues := splitTrim channelValue
  if channelValues.length = 1 then Clause.term channelField (channelValues.headD "")
  else Clause.terms channelField channelValues

/-- A log source reference whose mapping status is complete but whose
channel field and value are empty. -/
def completeNoChannelRef : LogSourceReference :=
  { x_mitre_data_component_ref := "dc-1", data_component_name := "Process Creation"
    name := "Sysmon", channel := ""
    mapping := { ecs := { name_field := "event.code", name_value := "1"
                          channel_field := "", channel_value := "" }
                 status := "complete", confidence := "high", notes := "", verified := true } }

/-- A log source reference with partial status and a configured channel. -/
def partialChannelRef : LogSourceReference :=
  { x_mitre_data_component_ref := "dc-2", data_component_name := "Network Traffic"
    name := "PacketBeat", channel := "netflow"
    mapping := { ecs := { name_field := "event.category", name_value := "network"
                          channel_field := "observer.type", channel_value := "firewall" }
                 status := "partial", confidence := "medium", notes := "", verified := false } }

/-- A detection-strategy object marked revoked (and not deprecated), with a
name and external references. -/
def revokedStrategyObj : StixObject :=
  { emptyStixObject with
      type := "x-mitre-detection-strategy", id := "ds-revoked"
      name := some "Revoked detection strategy"
      external_references := some [], revoked := some true }

/-- A well-formed detection-strategy object. -/
def goodStrategyObj : StixObject :=
  { emptyStixObject with
      type := "x-mitre-detection-strategy", id := "ds-ok"
      name := some "Good detection strategy"
      external_references := some [] }

/-- A concrete scoring environment: empty log store, no configured
settings, epoch 0, default refresh delay, Math.random draw 0. -/
def witnessScoringEnv : ScoringEnv :=
  { search := fun _ => { exists_ := false, lastDoc := none }
    retentionSettings := [], deviceSettings := []
    now := 0, refreshDelayMs := DEFAULT_REFRESH_DELAY_MS, rand := 0 }

/-- A full-pass environment with a missing ECS index. -/
def witnessFullEnv : FullPassEnv :=
  { ecsIndexExists := false, responses := [], scoring := witnessScoringEnv }

/-- A smart-pass environment with no pass in flight and no results index. -/
def smartInitEnv : SmartEnv :=
  { isRunning := false, resultsIndexExists := false, resultsStore := []
    full := witnessFullEnv, scoring := witnessScoringEnv }

/-- An all-zero scores block with an elapsed next execution. -/
def dueScores : Scores :=
  { next_execution := 0, quality_score := 0
    data_field_completeness :=
      { score := 0
        details := { base_score := 0, status_multiplier := 0, confidence_multiplier := 0
                     reason := "" } }
    timeliness :=
      { score := 0
        details := { last_doc_timestamp := none, last_doc_ingested := none
                     delta_seconds := none, reason := "" } }
    consistency := { score := 0, details := { reason := "" } }
    device_completeness := { score := 0, details := { coverage_percent := 0, reason := "" } }
    retention := { score := 0, details := { retention_percent := 0, reason := "" } } }

/-- A stored result document with one log source reference whose next
execution has elapsed. -/
def dueStoredAnalytic : AnalyticDocumentWithScores :=
  { id := "analytic-due", name := "Due analytic"
    x_mitre_log_source_references :=
      [{ x_mitre_data_component_ref := "dc-1", data_component_name := "Process Creation"
         name := "Sysmon", channel := ""
         mapping := { ecs := { name_field := "event.code", name_value := "1"
                               channel_field := "", channel_value := "", scores := dueScores }
                      status := "complete", confidence := "high", notes := ""
                      verified := true } }] }

/-- A smart-pass environment whose result store holds one due analytic. -/
def smartUpdateEnv : SmartEnv :=
  { isRunning := false, resultsIndexExists := true, resultsStore := [dueStoredAnalytic]
    full := witnessFullEnv, scoring := witnessScoringEnv }

/-- An analytic document without log source references (skipped by the
scoring loop without touching the log store). -/
def analyticNoRefs : AnalyticDocument :=
  { id := "analytic-1", name := "Analytic 1", x_mitre_log_source_references := [] }

/-- A full-pass environment whose ECS index exists and whose scrolled scan
has two batches, each response carrying a scroll id. -/
def scrollFullEnv : FullPassEnv :=
  { ecsIndexExists := true
    responses := [{ hits := [some analyticNoRefs], scrollId := some "scroll-1" },
                  { hits := [some analyticNoRefs], scrollId := some "scroll-1" }]
    scoring := witnessScoringEnv }

/-- Faults making the first scroll continuation throw. -/
def scrollContinuationFault : FullFaults :=
  { noFullFaults with scrollFailsAt := some 0 }

/-! ## Theorems -/

theorem jsRound_nonneg {q : ℚ} (h : 0 ≤ q) : 0 ≤ jsRound q := by
  unfold jsRound
  rw [round_eq, Int.le_floor]
  push_cast
  linarith

theorem jsRound_le {q : ℚ} {z : ℤ} (h : q ≤ z) : jsRound q ≤ z := by
  unfold jsRound
  rw [round_eq]
  have hlt : ⌊q + 1 / 2⌋ < z + 1 := by
    rw [Int.floor_lt]
    push_cast
    linarith
  omega

theorem roundTo2_bounds {q : ℚ} (h0 : 0 ≤ q) (h5 : q ≤ 5) :
    0 ≤ roundTo2 q ∧ roundTo2 q ≤ 5 := by
  unfold roundTo2
  constructor
  · have := jsRound_nonneg (q := q * 100) (by linarith)
    positivity
  · have h : jsRound (q * 100) ≤ (500 : ℤ) := jsRound_le (by push_cast; linarith)
    have hc : ((jsRound (q * 100) : ℤ) : ℚ) ≤ 500 := by exact_mod_cast h
    rw [div_le_iff₀ (by norm_num)]
    linarith

theorem roundTo1_bounds {q : ℚ} (h0 : 0 ≤ q) (h5 : q ≤ 5) :
    0 ≤ roundTo1 q ∧ roundTo1 q ≤ 5 := by
  unfold roundTo1
  constructor
  · have := jsRound_nonneg (q := q * 10) (by linarith)
    positivity
  · have h : jsRound (q * 10) ≤ (50 : ℤ) := jsRound_le (by push_cast; linarith)
    have hc : ((jsRound (q * 10) : ℤ) : ℚ) ≤ 50 := by exact_mod_cast h
    rw [div_le_iff₀ (by norm_num)]
    linarith

theorem statusMultiplierLookup_eq_spec {status : String} (h : status ≠ "unmapped") :
    statusMultiplierLookup status = specStatusMultiplier status := by
  unfold statusMultiplierLookup specStatusMultiplier
  split_ifs <;> simp_all

theorem confidenceMultiplierLookup_eq_spec (confidence : String) :
    confidenceMultiplierLookup confidence = specConfidenceMultiplier confidence := by
  unfold confidenceMultiplierLookup specConfidenceMultiplier
  split_ifs <;> simp_all

/-- C1: for every scored log-source reference, an unmapped status yields a
completeness score of 0 regardless of the probe result; otherwise the score
is the base score (5 when the probe found a matching record, 0 otherwise)
times the status multiplier (complete 1.0, partial 0.5, unrecognized 0)
times the confidence multiplier (high 1.0, medium 0.8, low 0.4, unset or
unrecognized 0), rounded to 2 decimals.  The function is total over all
status and confidence strings, so no value throws. -/
theorem completenessScore_matches_spec (search : List Clause → QueryResult)
    (status confidence nameField nameValue : String)
    (channelField channelValue : Option String) :
    (calculateDataFieldCompletenessScore search status confidence nameField nameValue
      channelField channelValue).score =
    if status = "unmapped" then 0
    else roundTo2
      ((if (queryFieldExists search nameField nameValue channelField channelValue).exists_
          then (5 : ℚ) else 0) *
        specStatusMultiplier status * specConfidenceMultiplier confidence) := by
  by_cases hs : status = "unmapped"
  · simp [calculateDataFieldCompletenessScore, hs]
  · simp only [calculateDataFieldCompletenessScore, hs, if_false,
      statusMultiplierLookup_eq_spec hs, confidenceMultiplierLookup_eq_spec]

/-- C8: calculateNextExecution is strictly in the future and lies within
refresh delay plus [60, 360] seconds of the computation time for every
possible Math.random draw, the refresh delay defaulting to 7 days. -/
theorem calculateNextExecution_bounds (now refreshDelayMs : ℤ) (rand : ℚ)
    (h0 : 0 ≤ rand) (h1 : rand < 1) (hr : 0 ≤ refreshDelayMs) :
    now < calculateNextExecution now refreshDelayMs rand ∧
    now + refreshDelayMs + 60 * 1000 ≤ calculateNextExecution now refreshDelayMs rand ∧
    calculateNextExecution now refreshDelayMs rand ≤ now + refreshDelayMs + 360 * 1000 ∧
    DEFAULT_REFRESH_DELAY_MS = 7 * 24 * 60 * 60 * 1000 := by
  have heq : calculateNextExecution now refreshDelayMs rand =
      now + refreshDelayMs + (⌊rand * (360 - 60 + 1)⌋ + 60) * 1000 := rfl
  rw [heq]
  have hfl0 : (0 : ℤ) ≤ ⌊rand * (360 - 60 + 1)⌋ := by
    rw [Int.le_floor]
    push_cast
    nlinarith
  have hfl1 : ⌊rand * (360 - 60 + 1)⌋ ≤ 300 := by
    have : ⌊rand * (360 - 60 + 1)⌋ < 301 := by
      rw [Int.floor_lt]
      push_cast
      nlinarith
    omega
  refine ⟨by omega, by omega, by omega, rfl⟩

/-- C8 witness: the bounds at now = 0, the default 7-day refresh delay and
the Math.random draw 1/2. -/
theorem calculateNextExecution_bounds_witness :
    (0 : ℤ) < calculateNextExecution 0 604800000 (1 / 2) ∧
    (0 : ℤ) + 604800000 + 60 * 1000 ≤ calculateNextExecution 0 604800000 (1 / 2) ∧
    calculateNextExecution 0 604800000 (1 / 2) ≤ (0 : ℤ) + 604800000 + 360 * 1000 ∧
    DEFAULT_REFRESH_DELAY_MS = 7 * 24 * 60 * 60 * 1000 :=
  calculateNextExecution_bounds 0 604800000 (1 / 2) (by norm_num) (by norm_num) (by norm_num)

/-- C7: every caught load failure (missing file, unreadable file, unparsable
file) yields a taxonomy whose tactic list is exactly the 14 fixed tactics in
canonical order with empty technique lists, and an empty platform list;
loadStixData catches those failures, so none of them reaches the caller. -/
theorem parseMatrix_failure_shape :
    (parseMatrix StixLoadOutcome.fileMissing).tactics.map (fun tw => tw.tactic) =
      MITRE_TACTICS_ORDER ∧
    ((parseMatrix StixLoadOutcome.fileMissing).tactics.all
      (fun tw => tw.techniques.isEmpty)) = true ∧
    (parseMatrix StixLoadOutcome.fileMissing).availablePlatforms = [] ∧
    (parseMatrix StixLoadOutcome.readError).tactics.map (fun tw => tw.tactic) =
      MITRE_TACTICS_ORDER ∧
    ((parseMatrix StixLoadOutcome.readError).tactics.all
      (fun tw => tw.techniques.isEmpty)) = true ∧
    (parseMatrix StixLoadOutcome.readError).availablePlatforms = [] ∧
    (parseMatrix StixLoadOutcome.parseError).tactics.map (fun tw => tw.tactic) =
      MITRE_TACTICS_ORDER ∧
    ((parseMatrix StixLoadOutcome.parseError).tactics.all
      (fun tw => tw.techniques.isEmpty)) = true ∧
    (parseMatrix StixLoadOutcome.parseError).availablePlatforms = [] ∧
    MITRE_TACTICS_ORDER.length = 14 :=
  ⟨rfl, rfl, rfl, rfl, rfl, rfl, rfl, rfl, rfl, rfl⟩

/-- C9 counterexample: a reference with status complete but an empty channel
field is probed on the name clause alone, so the channel clause is not
included even though the status is complete — the claimed equivalence fails
in the only-if-to-if direction. -/
theorem probeClauses_complete_without_channel :
    completeNoChannelRef.mapping.status = "complete" ∧
    probeClausesForLogSource completeNoChannelRef =
      some [Clause.term "event.code" "1"] :=
  ⟨rfl, rfl⟩

/-- C9 amended: whenever the probe issues a query, the channel clause is
included exactly when the mapping status is complete AND both channel field
and channel value are nonempty; in every other case the reference is probed
on the name field/value clause alone. -/
theorem probeClauses_channel_rule (ref : LogSourceReference)
    (hf : ref.mapping.ecs.name_field ≠ "") (hv : ref.mapping.ecs.name_value ≠ "") :
    probeClausesForLogSource ref =
      some (if ref.mapping.status = "complete" ∧ ref.mapping.ecs.channel_field ≠ "" ∧
              ref.mapping.ecs.channel_value ≠ "" then
          [Clause.term ref.mapping.ecs.name_field ref.mapping.ecs.name_value,
           channelClauseFor ref.mapping.ecs.channel_field ref.mapping.ecs.channel_value]
        else
          [Clause.term ref.mapping.ecs.name_field ref.mapping.ecs.name_value]) := by
  unfold probeClausesForLogSource issuedQueryFor mustClausesFor channelClauseFor
  by_cases hs : ref.mapping.status = "complete"
  · by_cases hcf : ref.mapping.ecs.channel_field = ""
    · simp [hs, hcf, hf, hv, optStrTruthy]
    · by_cases hcv : ref.mapping.ecs.channel_value = ""
      · simp [hs, hcf, hcv, hf, hv, optStrTruthy]
      · simp only [hs, if_true, if_pos]
        simp [hf, hv, hs, hcf, hcv, optStrTruthy]
        split_ifs <;> simp_all
  · simp [hs, hf, hv, optStrTruthy]

/-- C9 witness: the amended rule evaluated at a partial-status reference
with a configured channel — the probe carries the name clause alone. -/
theorem probeClauses_channel_rule_witness :
    probeClausesForLogSource partialChannelRef =
      some (if partialChannelRef.mapping.status = "complete" ∧
              partialChannelRef.mapping.ecs.channel_field ≠ "" ∧
              partialChannelRef.mapping.ecs.channel_value ≠ "" then
          [Clause.term partialChannelRef.mapping.ecs.name_field
            partialChannelRef.mapping.ecs.name_value,
           channelClauseFor partialChannelRef.mapping.ecs.channel_field
            partialChannelRef.mapping.ecs.channel_value]
        else
          [Clause.term partialChannelRef.mapping.ecs.name_field
            partialChannelRef.mapping.ecs.name_value]) :=
  probeClauses_channel_rule partialChannelRef (by decide) (by decide)

theorem mem_mapSet {α : Type} {l : List (String × α)} {k : String} {v : α} {kv : String × α}
    (h : kv ∈ mapSet l k v) : kv ∈ l ∨ kv = (k, v) := by
  unfold mapSet at h
  split at h
  · obtain ⟨kv0, hkv0, heq⟩ := List.mem_map.mp h
    by_cases hk : kv0.1 = k
    · right
      rw [if_pos hk] at heq
      exact heq.symm
    · left
      rw [if_neg hk] at heq
      exact heq ▸ hkv0
  · rcases List.mem_append.mp h with h1 | h1
    · exact Or.inl h1
    · right
      simpa using h1

theorem mem_foldl_mapSet {β : Type} (keep : StixObject → Bool) (mk : StixObject → β)
    (objects : List StixObject) (acc : List (String × β)) (kv : String × β)
    (h : kv ∈ objects.foldl
      (fun m obj => if keep obj then mapSet m obj.id (mk obj) else m) acc) :
    kv ∈ acc ∨ ∃ obj ∈ objects, keep obj = true ∧ kv = (obj.id, mk obj) := by
  induction objects generalizing acc with
  | nil => exact Or.inl h
  | cons o os ih =>
    simp only [List.foldl_cons] at h
    rcases ih _ h with h1 | ⟨obj, hm, hkeep, hkv⟩
    · by_cases hk : keep o = true
      · rw [if_pos hk] at h1
        rcases mem_mapSet h1 with h2 | h2
        · exact Or.inl h2
        · exact Or.inr ⟨o, List.mem_cons_self o os, hk, h2⟩
      · rw [if_neg hk] at h1
        exact Or.inl h1
    · exact Or.inr ⟨obj, List.mem_cons_of_mem o hm, hkeep, hkv⟩

theorem optBoolTruthy_false {x : Option Bool} (h : optBoolTruthy x = false) : x ≠ some true := by
  cases x with
  | none => simp
  | some b => cases b <;> simp_all [optBoolTruthy]

theorem optStrTruthy_getD {x : Option String} (h : optStrTruthy x = true) : x.getD "" ≠ "" := by
  cases x with
  | none => simp [optStrTruthy] at h
  | some s => simpa [optStrTruthy] using h

/-- C6 amended: every extracted attack pattern stems from a bundle object
passing the attack-pattern filter (not deprecated, not revoked, truthy name,
external references present), and every extracted detection strategy or
analytic from an object passing the respective filter (not deprecated,
truthy name, external references present — the revoked flag is NOT checked
for these two); in particular no collection contains an entry marked
deprecated or with an empty name, and only attack patterns are guaranteed
free of revoked entries. -/
theorem extract_collections_exclusions (objects : List StixObject) :
    (∀ p ∈ extractAttackPatterns objects,
       (∃ obj ∈ objects, keepAttackPattern obj = true ∧ p = toStixAttackPattern obj) ∧
       p.x_mitre_deprecated ≠ some true ∧ p.revoked ≠ some true ∧ p.name ≠ "") ∧
    (∀ kv ∈ extractDetectionStrategies objects,
       (∃ obj ∈ objects, keepDetectionStrategy obj = true ∧
         kv = (obj.id, toStixDetectionStrategy obj)) ∧
       kv.2.x_mitre_deprecated ≠ some true ∧ kv.2.name ≠ "") ∧
    (∀ kv ∈ extractAnalytics objects,
       (∃ obj ∈ objects, keepAnalytic obj = true ∧ kv = (obj.id, toStixAnalytic obj)) ∧
       kv.2.x_mitre_deprecated ≠ some true ∧ kv.2.name ≠ "") := by
  refine ⟨?_, ?_, ?_⟩
  · intro p hp
    obtain ⟨obj, hobj, rfl⟩ := List.mem_map.mp hp
    have hf := List.mem_filter.mp hobj
    have hkeep := hf.2
    have hparts := hkeep
    unfold keepAttackPattern at hparts
    simp only [Bool.and_eq_true, Bool.not_eq_true', decide_eq_true_eq] at hparts
    refine ⟨⟨obj, hf.1, hkeep, rfl⟩, ?_, ?_, ?_⟩
    · exact optBoolTruthy_false hparts.1.1.1.2
    · exact optBoolTruthy_false hparts.1.1.2
    · exact optStrTruthy_getD hparts.1.2
  · intro kv hkv
    rcases mem_foldl_mapSet keepDetectionStrategy toStixDetectionStrategy objects [] kv hkv with
      h1 | ⟨obj, hm, hkeep, rfl⟩
    · simp at h1
    · have hparts := hkeep
      unfold keepDetectionStrategy at hparts
      simp only [Bool.and_eq_true, Bool.not_eq_true', decide_eq_true_eq] at hparts
      exact ⟨⟨obj, hm, hkeep, rfl⟩, optBoolTruthy_false hparts.1.1.2,
        optStrTruthy_getD hparts.1.2⟩
  · intro kv hkv
    rcases mem_foldl_mapSet keepAnalytic toStixAnalytic objects [] kv hkv with
      h1 | ⟨obj, hm, hkeep, rfl⟩
    · simp at h1
    · have hparts := hkeep
      unfold keepAnalytic at hparts
      simp only [Bool.and_eq_true, Bool.not_eq_true', decide_eq_true_eq] at hparts
      exact ⟨⟨obj, hm, hkeep, rfl⟩, optBoolTruthy_false hparts.1.1.2,
        optStrTruthy_getD hparts.1.2⟩

/-- C6 counterexample: a detection-strategy object marked revoked is NOT
excluded by the extraction step — it lands in the typed strategy collection,
because the strategy filter never consults the revoked flag. -/
theorem extractDetectionStrategies_keeps_revoked :
    revokedStrategyObj.revoked = some true ∧
    extractDetectionStrategies [revokedStrategyObj] =
      [("ds-revoked", toStixDetectionStrategy revokedStrategyObj)] :=
  ⟨rfl, rfl⟩

/-- C6 witness: the amended exclusion facts evaluated on the strategy
extracted from a concrete one-object bundle. -/
theorem extract_collections_exclusions_witness :
    (toStixDetectionStrategy goodStrategyObj).x_mitre_deprecated ≠ some true ∧
    (toStixDetectionStrategy goodStrategyObj).name ≠ "" := by
  have hmem : ("ds-ok", toStixDetectionStrategy goodStrategyObj) ∈
      extractDetectionStrategies [goodStrategyObj] := by
    have heq : extractDetectionStrategies [goodStrategyObj] =
        [("ds-ok", toStixDetectionStrategy goodStrategyObj)] := rfl
    rw [heq]
    exact List.mem_singleton.mpr rfl
  have h := (extract_collections_exclusions [goodStrategyObj]).2.1
    ("ds-ok", toStixDetectionStrategy goodStrategyObj) hmem
  exact ⟨h.2.1, h.2.2⟩

theorem statusMultiplierLookup_bounds (status : String) :
    0 ≤ statusMultiplierLookup status ∧ statusMultiplierLookup status ≤ 1 := by
  unfold statusMultiplierLookup
  split_ifs <;> norm_num

theorem confidenceMultiplierLookup_bounds (confidence : String) :
    0 ≤ confidenceMultiplierLookup confidence ∧ confidenceMultiplierLookup confidence ≤ 1 := by
  unfold confidenceMultiplierLookup
  split_ifs <;> norm_num

theorem completenessScore_eq (search : List Clause → QueryResult)
    (status confidence nameField nameValue : String)
    (channelField channelValue : Option String) (hs : status ≠ "unmapped") :
    (calculateDataFieldCompletenessScore search status confidence nameField nameValue
      channelField channelValue).score =
    roundTo2
      ((if (queryFieldExists search nameField nameValue channelField channelValue).exists_
          then (5 : ℚ) else 0) *
        statusMultiplierLookup status * confidenceMultiplierLookup confidence) := by
  unfold calculateDataFieldCompletenessScore
  rw [if_neg hs]

theorem completenessScore_bounds (search : List Clause → QueryResult)
    (status confidence nameField nameValue : String)
    (channelField channelValue : Option String) :
    0 ≤ (calculateDataFieldCompletenessScore search status confidence nameField nameValue
      channelField channelValue).score ∧
    (calculateDataFieldCompletenessScore search status confidence nameField nameValue
      channelField channelValue).score ≤ 5 := by
  by_cases hs : status = "unmapped"
  · unfold calculateDataFieldCompletenessScore
    rw [if_pos hs]
    norm_num
  · rw [completenessScore_eq search status confidence nameField nameValue channelField
      channelValue hs]
    obtain ⟨hsm0, hsm1⟩ := statusMultiplierLookup_bounds status
    obtain ⟨hcm0, hcm1⟩ := confidenceMultiplierLookup_bounds confidence
    set b : ℚ := if (queryFieldExists search nameField nameValue channelField
      channelValue).exists_ then (5 : ℚ) else 0 with hbdef
    have hb : 0 ≤ b ∧ b ≤ 5 := by
      rw [hbdef]
      split_ifs <;> norm_num
    apply roundTo2_bounds
    · exact mul_nonneg (mul_nonneg hb.1 hsm0) hcm0
    · calc b * statusMultiplierLookup status * confidenceMultiplierLookup confidence
          ≤ b * statusMultiplierLookup status :=
            mul_le_of_le_one_right (mul_nonneg hb.1 hsm0) hcm1
        _ ≤ b := mul_le_of_le_one_right hb.1 hsm1
        _ ≤ 5 := hb.2

theorem timelinessScore_bounds (lastDoc : Option LastDoc) :
    0 ≤ (calculateTimelinessScore lastDoc).score ∧ (calculateTimelinessScore lastDoc).score ≤ 5 := by
  unfold calculateTimelinessScore
  rcases lastDoc with _ | ⟨ts, ing⟩
  · norm_num
  · rcases ing with _ | ingested
    · norm_num
    · rcases ts with _ | timestamp
      · norm_num
      · dsimp only
        split_ifs <;> norm_num

theorem consistencyScore_bounds (fieldExists : Bool) :
    0 ≤ (calculateConsistencyScore fieldExists).score ∧
    (calculateConsistencyScore fieldExists).score ≤ 5 := by
  unfold calculateConsistencyScore
  cases fieldExists <;> norm_num

theorem deviceScore_bounds (fieldExists : Bool) (configuredScore : ℚ)
    (h0 : 0 ≤ configuredScore) (h5 : configuredScore ≤ 5) :
    0 ≤ (calculateDeviceCompletenessScore fieldExists configuredScore).score ∧
    (calculateDeviceCompletenessScore fieldExists configuredScore).score ≤ 5 := by
  unfold calculateDeviceCompletenessScore
  cases fieldExists
  · norm_num
  · simpa using ⟨h0, h5⟩

theorem retentionScore_bounds (fieldExists : Bool) (configuredScore : ℚ)
    (h0 : 0 ≤ configuredScore) (h5 : configuredScore ≤ 5) :
    0 ≤ (calculateRetentionScore fieldExists configuredScore).score ∧
    (calculateRetentionScore fieldExists configuredScore).score ≤ 5 := by
  unfold calculateRetentionScore
  cases fieldExists
  · norm_num
  · simpa using ⟨h0, h5⟩

theorem list_sum_le_len_mul {l : List ℚ} (h : ∀ x ∈ l, x ≤ 5) : l.sum ≤ l.length * 5 := by
  induction l with
  | nil => simp
  | cons x xs ih =>
    simp only [List.sum_cons, List.length_cons]
    have hx := h x (List.mem_cons_self x xs)
    have hxs := ih (fun y hy => h y (List.mem_cons_of_mem x hy))
    push_cast
    linarith

theorem getScoreForPlatform_bounds (settings : List (String × ℚ)) (defaultScore : ℚ)
    (platform : Option String) (hd0 : 0 ≤ defaultScore) (hd5 : defaultScore ≤ 5)
    (h : ∀ kv ∈ settings, 0 ≤ kv.2 ∧ kv.2 ≤ 5) :
    0 ≤ getScoreForPlatform settings defaultScore platform ∧
    getScoreForPlatform settings defaultScore platform ≤ 5 := by
  unfold getScoreForPlatform
  rcases platform with _ | p
  · dsimp only
    by_cases hlen : (settings.map (fun kv => kv.2)).length = 0
    · rw [if_pos hlen]
      exact ⟨hd0, hd5⟩
    · rw [if_neg hlen]
      set cs := settings.map (fun kv => kv.2) with hcs
      have h0 : ∀ x ∈ cs, 0 ≤ x := by
        intro x hx
        obtain ⟨kv, hkv, rfl⟩ := List.mem_map.mp hx
        exact (h kv hkv).1
      have h5 : ∀ x ∈ cs, x ≤ 5 := by
        intro x hx
        obtain ⟨kv, hkv, rfl⟩ := List.mem_map.mp hx
        exact (h kv hkv).2
      have hs0 : 0 ≤ cs.sum := List.sum_nonneg h0
      have hs5 : cs.sum ≤ cs.length * 5 := list_sum_le_len_mul h5
      have hlpos : (0 : ℚ) < cs.length := by
        have := Nat.pos_of_ne_zero hlen
        exact_mod_cast this
      apply roundTo1_bounds
      · exact div_nonneg hs0 (le_of_lt hlpos)
      · rw [div_le_iff₀ hlpos]
        linarith
  · dsimp only
    cases hl : lookupSetting settings p with
    | none => exact ⟨hd0, hd5⟩
    | some v =>
      obtain ⟨kv, hfind, hsnd⟩ := Option.map_eq_some'.mp hl
      have hmem := List.mem_of_find?_eq_some hfind
      have := h kv hmem
      rw [hsnd] at this
      exact this

theorem sum_dimensionScores (s : Scores) :
    (dimensionScores s).sum =
      s.data_field_completeness.score + s.timeliness.score + s.consistency.score +
      s.device_completeness.score + s.retention.score := by
  simp [dimensionScores]
  ring

/-- C2: under the precondition that every configured retention and device
completeness score lies in [0,5], every dimension score produced by
calculateScoresForLogSource lies in [0,5], and the aggregate quality score
is the arithmetic mean of the five dimension scores rounded to 1 decimal,
hence also in [0,5]. -/
theorem logSourceScores_bounds (env : ScoringEnv) (ref : LogSourceReference)
    (platform : Option String)
    (hret : ∀ kv ∈ env.retentionSettings, 0 ≤ kv.2 ∧ kv.2 ≤ 5)
    (hdev : ∀ kv ∈ env.deviceSettings, 0 ≤ kv.2 ∧ kv.2 ≤ 5) :
    (∀ s ∈ dimensionScores (calculateScoresForLogSource env ref platform), 0 ≤ s ∧ s ≤ 5) ∧
    (calculateScoresForLogSource env ref platform).quality_score =
      roundTo1 ((dimensionScores (calculateScoresForLogSource env ref platform)).sum / 5) ∧
    0 ≤ (calculateScoresForLogSource env ref platform).quality_score ∧
    (calculateScoresForLogSource env ref platform).quality_score ≤ 5 := by
  have hdevcfg := getScoreForPlatform_bounds env.deviceSettings DEFAULT_DEVICE_COMPLETENESS_SCORE
    platform (by norm_num [DEFAULT_DEVICE_COMPLETENESS_SCORE])
    (by norm_num [DEFAULT_DEVICE_COMPLETENESS_SCORE]) hdev
  have hretcfg := getScoreForPlatform_bounds env.retentionSettings DEFAULT_RETENTION_SCORE
    platform (by norm_num [DEFAULT_RETENTION_SCORE])
    (by norm_num [DEFAULT_RETENTION_SCORE]) hret
  have hall : ∀ s ∈ dimensionScores (calculateScoresForLogSource env ref platform),
      0 ≤ s ∧ s ≤ 5 := by
    intro s hs
    simp only [dimensionScores, List.mem_cons, List.not_mem_nil, or_false] at hs
    rcases hs with rfl | rfl | rfl | rfl | rfl
    · exact completenessScore_bounds env.search ref.mapping.status ref.mapping.confidence
        ref.mapping.ecs.name_field ref.mapping.ecs.name_value _ _
    · exact timelinessScore_bounds _
    · exact consistencyScore_bounds _
    · exact deviceScore_bounds _ _ hdevcfg.1 hdevcfg.2
    · exact retentionScore_bounds _ _ hretcfg.1 hretcfg.2
  have hq : (calculateScoresForLogSource env ref platform).quality_score =
      roundTo1 ((dimensionScores (calculateScoresForLogSource env ref platform)).sum / 5) := by
    rw [sum_dimensionScores]
    rfl
  have h1 := hall ((calculateScoresForLogSource env ref platform).data_field_completeness.score)
    (by simp [dimensionScores])
  have h2 := hall ((calculateScoresForLogSource env ref platform).timeliness.score)
    (by simp [dimensionScores])
  have h3 := hall ((calculateScoresForLogSource env ref platform).consistency.score)
    (by simp [dimensionScores])
  have h4 := hall ((calculateScoresForLogSource env ref platform).device_completeness.score)
    (by simp [dimensionScores])
  have h5 := hall ((calculateScoresForLogSource env ref platform).retention.score)
    (by simp [dimensionScores])
  have hqb :
      0 ≤ roundTo1 ((dimensionScores (calculateScoresForLogSource env ref platform)).sum / 5) ∧
      roundTo1 ((dimensionScores (calculateScoresForLogSource env ref platform)).sum / 5) ≤ 5 := by
    rw [sum_dimensionScores]
    apply roundTo1_bounds
    · linarith [h1.1, h2.1, h3.1, h4.1, h5.1]
    · linarith [h1.2, h2.2, h3.2, h4.2, h5.2]
  exact ⟨hall, hq, hq ▸ hqb.1, hq ▸ hqb.2⟩

/-- C2 witness: the aggregate bounds evaluated on a concrete environment
and log source reference with empty settings maps. -/
theorem logSourceScores_bounds_witness :
    0 ≤ (calculateScoresForLogSource witnessScoringEnv completeNoChannelRef
      Option.none).quality_score ∧
    (calculateScoresForLogSource witnessScoringEnv completeNoChannelRef
      Option.none).quality_score ≤ 5 := by
  have h := logSourceScores_bounds witnessScoringEnv completeNoChannelRef Option.none
    (by simp [witnessScoringEnv]) (by simp [witnessScoringEnv])
  exact ⟨h.2.2.1, h.2.2.2⟩

theorem fullScanLoop_noFaults_not_errored (env : FullPassEnv) :
    ∀ (fuel : ℕ) (hits : List (Option AnalyticDocument)) (scrollId : Option String)
      (k : ℕ) (acc : List AnalyticDocumentWithScores),
      (fullScanLoop env noFullFaults fuel hits scrollId k acc).errored = false := by
  intro fuel
  induction fuel with
  | zero => intro hits scrollId k acc; rfl
  | succ n ih =>
    intro hits scrollId k acc
    unfold fullScanLoop
    by_cases hh : hits.isEmpty
    · rw [if_pos hh]
    · rw [if_neg hh]
      rcases scrollId with _ | sid
      · rfl
      · dsimp only
        rw [if_neg (by simp [noFullFaults])]
        exact ih _ _ _ _

theorem processAllAnalytics_noFaults_ok (env : FullPassEnv) :
    (processAllAnalytics env noFullFaults).result = Except.ok () := by
  cases he : env.ecsIndexExists with
  | false => simp [processAllAnalytics, he]
  | true =>
    unfold processAllAnalytics
    rw [if_neg (by simp [he]), if_neg (by simp [noFullFaults])]
    have hscan := fullScanLoop_noFaults_not_errored env (env.responses.length + 1)
      (env.responses.getD 0 { hits := [], scrollId := none }).hits
      (env.responses.getD 0 { hits := [], scrollId := none }).scrollId 0 []
    simp only [List.getD_eq_getElem?_getD] at hscan ⊢
    simp only [hscan, Bool.false_eq_true, if_false]
    rw [if_neg (by simp [noFullFaults])]

theorem filterMap_some_eq_map {α β : Type} (f : α → β) (l : List α) :
    l.filterMap (fun a => some (f a)) = l.map f := by
  induction l with
  | nil => rfl
  | cons x xs ih => simp [List.filterMap_cons, ih]

/-- C3: with no pass in flight and no injected fault, the smart pass runs a
full init pass and reports init with count -1 when the result store is
absent or empty, reports a no-op with no writes when results exist but none
is due, and otherwise recomputes exactly the due analytics, writes back only
those, and reports update with their number. -/
theorem smartScoring_actions (env : SmartEnv) (h : env.isRunning = false) :
    ((env.resultsIndexExists = false ∨ env.resultsStore = []) →
      runSmartScoringWithClient env noSmartFaults =
        { result := Except.ok { action := SmartAction.init, count := -1 }, writes := []
          fullPass := some (processAllAnalytics env.full noFullFaults)
          finalIsRunning := false }) ∧
    (env.resultsIndexExists = true → env.resultsStore ≠ [] →
      getAnalyticsNeedingRecalculation false env.scoring.now env.resultsStore = [] →
      runSmartScoringWithClient env noSmartFaults =
        { result := Except.ok { action := SmartAction.none, count := 0 }, writes := []
          fullPass := Option.none, finalIsRunning := false }) ∧
    (env.resultsIndexExists = true → env.resultsStore ≠ [] →
      getAnalyticsNeedingRecalculation false env.scoring.now env.resultsStore ≠ [] →
      runSmartScoringWithClient env noSmartFaults =
        { result := Except.ok
            { action := SmartAction.update,
              count := (getAnalyticsNeedingRecalculation false env.scoring.now
                env.resultsStore).length }
          writes := (getAnalyticsNeedingRecalculation false env.scoring.now
            env.resultsStore).map
            (fun a => processAnalytic env.scoring (stripScores a) Option.none)
          fullPass := Option.none, finalIsRunning := false }) := by
  have hok := processAllAnalytics_noFaults_ok env.full
  refine ⟨?_, ?_, ?_⟩
  · rintro (hidx | hempty)
    · simp [runSmartScoringWithClient, h, hidx, noSmartFaults, hok]
    · cases hidx : env.resultsIndexExists with
      | false => simp [runSmartScoringWithClient, h, hidx, noSmartFaults, hok]
      | true => simp [runSmartScoringWithClient, h, hidx, hempty, noSmartFaults, hok]
  · intro hidx hne hdue
    simp [runSmartScoringWithClient, h, hidx, noSmartFaults, hdue,
      List.length_eq_zero, hne]
  · intro hidx hne hdue
    have hlen : ((getAnalyticsNeedingRecalculation false env.scoring.now
        env.resultsStore).length = 0) = False := by
      simp [List.length_eq_zero, hdue]
    simp [runSmartScoringWithClient, h, hidx, noSmartFaults, hlen,
      List.length_eq_zero, hne, filterMap_some_eq_map]

/-- C3 witness: on an environment whose result store is absent, the
fault-free smart pass reports init with count -1 and runs the full pass. -/
theorem smartScoring_actions_witness :
    runSmartScoringWithClient smartInitEnv noSmartFaults =
      { result := Except.ok { action := SmartAction.init, count := -1 }, writes := []
        fullPass := some (processAllAnalytics smartInitEnv.full noFullFaults)
        finalIsRunning := false } :=
  (smartScoring_actions smartInitEnv rfl).1 (Or.inl rfl)

theorem smart_flag_cleared (env : SmartEnv) (f : SmartFaults) (h : env.isRunning = false) :
    (runSmartScoringWithClient env f).finalIsRunning = false := by
  unfold runSmartScoringWithClient
  rw [if_neg (by simp [h])]
  split_ifs <;> try rfl
  all_goals (dsimp only; split <;> rfl)

/-- C4: while a pass is in flight, a concurrently triggered smart pass
returns the no-op result with no writes and no full pass, and a concurrently
triggered full pass does not run; the exclusive-run flag is cleared when a
pass that did start ends, whatever faults occur (success or failure). -/
theorem concurrencyGuard (env : SmartEnv) (f : SmartFaults)
    (fullEnv : FullPassEnv) (g : FullFaults) :
    runSmartScoringWithClient { env with isRunning := true } f =
      { result := Except.ok { action := SmartAction.none, count := 0 }, writes := []
        fullPass := Option.none, finalIsRunning := true } ∧
    (runSmartScoringWithClient { env with isRunning := false } f).finalIsRunning = false ∧
    runFullCalculation true fullEnv g = (Option.none, true) ∧
    (runFullCalculation false fullEnv g).2 = false := by
  exact ⟨rfl, smart_flag_cleared { env with isRunning := false } f rfl, rfl, rfl⟩

/-- C10: the due-analytics scan returns at most 100 stored documents (a
single size-100 search with no paging), the smart update loop writes back at
most 100 documents, and a reported update count never exceeds 100. -/
theorem smartUpdate_capped (env : SmartEnv) (f : SmartFaults) :
    (getAnalyticsNeedingRecalculation f.recalcSearchFails env.scoring.now
      env.resultsStore).length ≤ 100 ∧
    (runSmartScoringWithClient env f).writes.length ≤ 100 ∧
    (∀ c : ℤ, (runSmartScoringWithClient env f).result =
      Except.ok { action := SmartAction.update, count := c } → c ≤ 100) := by
  have hcap : ∀ (b : Bool),
      (getAnalyticsNeedingRecalculation b env.scoring.now env.resultsStore).length ≤ 100 := by
    intro b
    unfold getAnalyticsNeedingRecalculation
    split_ifs
    · simp
    · simp only [List.length_take]
      exact min_le_left _ _
  refine ⟨hcap _, ?_, ?_⟩
  · unfold runSmartScoringWithClient
    split_ifs
    all_goals try (dsimp only; split <;> simp)
    all_goals try simp
    all_goals exact le_trans (List.length_filterMap_le _ _) (hcap _)
  · intro c hc
    unfold runSmartScoringWithClient at hc
    split_ifs at hc <;>
      first
        | (dsimp only at hc
           split at hc <;> simp at hc)
        | (simp at hc)
    all_goals
      have hlen : ((getAnalyticsNeedingRecalculation f.recalcSearchFails env.scoring.now
          env.resultsStore).length : ℤ) ≤ 100 := by exact_mod_cast hcap f.recalcSearchFails
    all_goals omega

/-- C10 witness: on a store with one due analytic the fault-free smart pass
reports update with count 1, and the cap bounds that count by 100. -/
theorem smartUpdate_capped_witness : (1 : ℤ) ≤ 100 :=
  (smartUpdate_capped smartUpdateEnv noSmartFaults).2.2 1 rfl

/-- C5: processAllAnalytics does NOT close the scroll on every exit path.
On a fault-free run over the same environment the scroll is cleared, but
when a scroll continuation throws, the error propagates past the clearScroll
call (there is no guaranteed-cleanup block around it) and the opened scroll
is left unclosed — the claimed close-on-error guarantee fails exactly
there. -/
theorem processAllAnalytics_scroll_leak :
    (processAllAnalytics scrollFullEnv noFullFaults).result = Except.ok () ∧
    (processAllAnalytics scrollFullEnv noFullFaults).scrollOpened = true ∧
    (processAllAnalytics scrollFullEnv noFullFaults).scrollCleared = true ∧
    processAllAnalytics scrollFullEnv scrollContinuationFault =
      { result := Except.error (), writes := [], scrollOpened := true
        scrollCleared := false } :=
  ⟨rfl, rfl, rfl, rfl⟩
